import Mathlib

/-!
Verification of the EEG-PARADOX-VIEWER overlay engine and coordinate /
filter pipeline (`src/eeg_paradox_viewer_v2_live.py`).

Shallow embedding conventions:
* `QPoint` becomes `Pt` with `Int` coordinates.
* Python `int(a / b)` on a nonnegative divisor is truncation toward zero,
  embedded as `Int.tdiv` (T-division).  The source divides by the float
  `zoom_factor = scale_percent / 100.0`; we model the quotient with exact
  rational arithmetic `x * 100 / zoom`, whose truncation agrees with the
  double computation for the magnitudes reachable here (coordinates below
  2^31, zoom in [10,400], so exact quotients sit at least 1/400 away from
  the nearest integer they do not equal, far beyond double rounding error).
* Python dicts become association lists with Python's `dict.update`
  semantics (replace in place, append new keys at the end); object
  aliasing is rendered as equality of the shared value.
* `datetime.now()`-based overlay ids are modelled by an explicit fresh
  `Nat` supplied to each constructor call (the spec only relies on ids
  being distinguishable / fresh).
-/

namespace EEGParadox

/-- `QPoint`: integer 2-D point. -/
structure Pt where
  x : Int
  y : Int
deriving DecidableEq, Repr

/-- Forward map used by every overlay `draw` method:
`QPoint(int(p.x() * zoom_factor), int(p.y() * zoom_factor))` with
`zoom_factor = zoom / 100.0` (source lines 537, 574-575, 632-633). -/
def toDeviceSpace (zoom : Int) (p : Pt) : Pt :=
  ⟨Int.tdiv (p.x * zoom) 100, Int.tdiv (p.y * zoom) 100⟩

/-- The image-space point computed by `get_image_coordinates`:
`int(label_pos.x() / zoom_factor)` for each axis (source lines 1581-1582). -/
def imageFromLabel (zoom : Int) (label : Pt) : Pt :=
  ⟨Int.tdiv (label.x * 100) zoom, Int.tdiv (label.y * 100) zoom⟩

/-- Bounds test of `get_image_coordinates`
(`0 <= image_x < original_width and 0 <= image_y < original_height`,
source line 1585). -/
def inBoundsPt (w h : Int) (p : Pt) : Bool :=
  decide (0 ≤ p.x) && decide (p.x < w) && decide (0 ≤ p.y) && decide (p.y < h)

/-- `ImageZoomViewer.get_image_coordinates` (source lines 1557-1587):
converts a device/label position to image coordinates, returning `none`
when the computed point falls outside the source image bounds. -/
def getImageCoordinates (zoom w h : Int) (label : Pt) : Option Pt :=
  let p := imageFromLabel zoom label
  if inBoundsPt w h p then some p else none

/-- Value stored in an overlay's `data` dict: Python `None`, a string,
an integer, or a two-element coordinate tuple `(x, y)`. -/
inductive DVal where
  | vnone
  | str (v : String)
  | int (v : Int)
  | pair (x y : Int)
deriving DecidableEq, Repr

/-- A Python dict used as the overlay `data` mapping, as an association
list in insertion order. -/
abbrev ExtraMap : Type := List (String × DVal)

/-- `m.get(k)`-style lookup. -/
def lookupKey : ExtraMap → String → Option DVal
  | [], _ => none
  | (k', v') :: rest, k => if k' = k then some v' else lookupKey rest k

/-- `m.get(k)` with Python's `None` default. -/
def getKey (m : ExtraMap) (k : String) : DVal :=
  (lookupKey m k).getD .vnone

/-- One key of a `dict.update` call: replace the value in place if the key
exists (keeping its position), otherwise append the new key at the end. -/
def updateKey : ExtraMap → String → DVal → ExtraMap
  | [], k, v => [(k, v)]
  | (k', v') :: rest, k, v =>
      if k' = k then (k, v) :: rest else (k', v') :: updateKey rest k v

/-- The three concrete `AnalysisOverlay` variants (source lines 498-679).
`id` is the `datetime.now()`-derived identifier (modelled as `Nat`);
`text`/`color` hold whatever Python value was supplied (a committed
overlay stores strings, `from_dict` stores `data.get(...)`, which may be
`None`). -/
inductive Overlay where
  | note (id : Nat) (position : Pt) (text : DVal) (color : DVal) (data : ExtraMap)
  | ruler (id : Nat) (startPoint : Pt) (endPoint : Pt) (color : DVal) (data : ExtraMap)
  | roi (id : Nat) (topLeft : Pt) (bottomRight : Pt) (color : DVal) (data : ExtraMap)
deriving DecidableEq, Repr

/-- The overlay's `id` attribute. -/
def Overlay.idOf : Overlay → Nat
  | .note i _ _ _ _ => i
  | .ruler i _ _ _ _ => i
  | .roi i _ _ _ _ => i

/-- The overlay's `color` attribute. -/
def Overlay.colorOf : Overlay → DVal
  | .note _ _ _ c _ => c
  | .ruler _ _ _ c _ => c
  | .roi _ _ _ c _ => c

/-- The overlay's `data` attribute. -/
def Overlay.dataOf : Overlay → ExtraMap
  | .note _ _ _ _ d => d
  | .ruler _ _ _ _ d => d
  | .roi _ _ _ _ d => d

/-- Replace the overlay's `id`, keeping every other field. -/
def Overlay.withId (n : Nat) : Overlay → Overlay
  | .note _ p t c d => .note n p t c d
  | .ruler _ s e c d => .ruler n s e c d
  | .roi _ tl br c d => .roi n tl br c d

/-- A persisted overlay record `{id, type, data}` as produced by
`AnalysisOverlay.to_dict` (source lines 508-513). -/
structure Record where
  id : Nat
  type : String
  data : ExtraMap
deriving DecidableEq, Repr

/-- `to_dict` of each overlay variant (source lines 508-513, 547-554,
603-611, 663-670).  In Python `d['data']` aliases `self.data`, so the
`d['data'].update({...})` call mutates the overlay's own `data` dict and
the returned record shares it; the pure embedding returns both the record
and the overlay as mutated, with the shared dict appearing as the same
value in both.  The `update` dict literals are applied key by key in
their written order; for `Ruler`, `self.data.get('note')` is read from
the pre-update dict (the earlier keys are distinct from `'note'`). -/
def Overlay.toDict : Overlay → Record × Overlay
  | .note i p t c d =>
      let d' := updateKey (updateKey (updateKey d "position" (.pair p.x p.y)) "text" t) "color" c
      (⟨i, "Note", d'⟩, .note i p t c d')
  | .ruler i s e c d =>
      let d' := updateKey (updateKey (updateKey (updateKey d
        "start_point" (.pair s.x s.y)) "end_point" (.pair e.x e.y)) "color" c)
        "note" (getKey d "note")
      (⟨i, "Ruler", d'⟩, .ruler i s e c d')
  | .roi i tl br c d =>
      let d' := updateKey (updateKey (updateKey d
        "top_left" (.pair tl.x tl.y)) "bottom_right" (.pair br.x br.y)) "color" c
      (⟨i, "ROI", d'⟩, .roi i tl br c d')

/-- A raised Python exception during record loading (`TypeError` from
subscripting a missing/non-tuple geometry value). -/
inductive LoadError where
  | typeError
deriving DecidableEq, Repr

/-- `NoteOverlay.from_dict` (source lines 556-561): subscripts
`data.get("position")`, which raises `TypeError` unless it is a
coordinate tuple; the constructor generates a fresh id (`from_dict` never
reads the record's `id`). -/
def noteFromDict (fresh : Nat) (r : Record) : Except LoadError Overlay :=
  match lookupKey r.data "position" with
  | some (.pair a b) =>
      .ok (.note fresh ⟨a, b⟩ (getKey r.data "text") (getKey r.data "color") r.data)
  | _ => .error .typeError

/-- `RulerOverlay.from_dict` (source lines 613-620). -/
def rulerFromDict (fresh : Nat) (r : Record) : Except LoadError Overlay :=
  match lookupKey r.data "start_point", lookupKey r.data "end_point" with
  | some (.pair a b), some (.pair c d) =>
      .ok (.ruler fresh ⟨a, b⟩ ⟨c, d⟩ (getKey r.data "color") r.data)
  | _, _ => .error .typeError

/-- `RegionOfInterestOverlay.from_dict` (source lines 672-679). -/
def roiFromDict (fresh : Nat) (r : Record) : Except LoadError Overlay :=
  match lookupKey r.data "top_left", lookupKey r.data "bottom_right" with
  | some (.pair a b), some (.pair c d) =>
      .ok (.roi fresh ⟨a, b⟩ ⟨c, d⟩ (getKey r.data "color") r.data)
  | _, _ => .error .typeError

/-- `AnalysisOverlay.from_dict` (source lines 515-524): dispatch on the
`type` tag, returning Python `None` (here `Option.none`) for an unknown
kind. -/
def AnalysisOverlay.fromDict (fresh : Nat) (r : Record) :
    Except LoadError (Option Overlay) :=
  if r.type = "Note" then (noteFromDict fresh r).map some
  else if r.type = "Ruler" then (rulerFromDict fresh r).map some
  else if r.type = "ROI" then (roiFromDict fresh r).map some
  else .ok none

/-- Serialization of the overlay list as done by `closeEvent` /
`export_overlays` (source lines 1995-1997, 1953-1955):
`[o.to_dict() for o in overlays]`.  Returns the records together with the
overlays as mutated by `to_dict`. -/
def serializeOverlays : List Overlay → List Record × List Overlay
  | [] => ([], [])
  | o :: os =>
      let ro := o.toDict
      let rs := serializeOverlays os
      (ro.1 :: rs.1, ro.2 :: rs.2)

/-- The `restore_session` overlay-loading loop (source lines 1712-1717):
`self.analysis_overlays = []` then, for each record, append
`AnalysisOverlay.from_dict(overlay_data)` unconditionally — including its
`None` result for an unknown kind.  A raised `TypeError` escapes the loop,
leaving the successfully processed prefix in place; the result is the
appended list paired with the escaped exception, if any.  Each `from_dict`
call is given the next fresh id. -/
def restoreOverlays (fresh : Nat) : List Record → List (Option Overlay) × Option LoadError
  | [] => ([], none)
  | r :: rs =>
      match AnalysisOverlay.fromDict fresh r with
      | .error e => ([], some e)
      | .ok o =>
          let t := restoreOverlays (fresh + 1) rs
          (o :: t.1, t.2)

/-- Failure mode named by the specification for invalid store indices. -/
inductive StoreError where
  | indexOutOfRange
deriving DecidableEq, Repr

/-- `ImageZoomViewer.delete_overlay` (source lines 1904-1909): the guard
`if 0 <= index < len(self.analysis_overlays)` makes the operation total —
an invalid index is silently ignored and no exception can escape.  The
`Except` result type gives the specification's `IndexOutOfRange` failure a
place to live; the code never produces it. -/
def deleteOverlay (index : Int) (overlays : List Overlay) :
    Except StoreError (List Overlay) :=
  if 0 ≤ index ∧ index < overlays.length then
    .ok (overlays.eraseIdx index.toNat)
  else
    .ok overlays

/-- The `current_analysis_tool` selection. -/
inductive Tool where
  | note
  | ruler
  | roi
deriving DecidableEq, Repr

/-- The mutable viewer fields touched by the analysis-mode pointer
handlers: `current_analysis_tool`, `drawing_overlay`,
`drawing_start_point`, `analysis_overlays`. -/
structure AnalysisState where
  currentAnalysisTool : Tool
  drawingOverlay : Option Overlay
  drawingStartPoint : Option Pt
  analysisOverlays : List Overlay
deriving DecidableEq, Repr

/-- `handle_analysis_mouse_press` (source lines 1479-1506).  The modal
dialogs are suppliers of structured input: `textInput` is the Note text
dialog's result (`none` = cancelled, `some ""` is falsy and also ignored),
`colorInput` the Ruler color dialog's result (`none` = invalid/cancelled).
Notes are created with the hard-coded color `"#00FF00"`, ROI drafts with
`"#0000FF"`; `fresh` is the id the constructor would draw from the
clock. -/
def handleAnalysisMousePress (zoom w h : Int) (fresh : Nat)
    (textInput colorInput : Option String) (mousePos : Pt)
    (st : AnalysisState) : AnalysisState :=
  match getImageCoordinates zoom w h mousePos with
  | none => st
  | some pos =>
      match st.currentAnalysisTool with
      | .note =>
          match textInput with
          | some t =>
              if t ≠ "" then
                { st with analysisOverlays :=
                    st.analysisOverlays ++ [.note fresh pos (.str t) (.str "#00FF00") []] }
              else st
          | none => st
      | .ruler =>
          match colorInput with
          | some c =>
              { st with drawingStartPoint := some pos,
                        drawingOverlay := some (.ruler fresh pos pos (.str c) []) }
          | none => st
      | .roi =>
          { st with drawingStartPoint := some pos,
                    drawingOverlay := some (.roi fresh pos pos (.str "#0000FF") []) }

/-- `handle_analysis_mouse_move` (source lines 1508-1523): with a draft in
progress, a Ruler draft's `end_point` (resp. an ROI draft's
`bottom_right`) follows the pointer; nothing is committed to the overlay
list.  The status-bar message is UI-only and not modelled. -/
def handleAnalysisMouseMove (zoom w h : Int) (mousePos : Pt)
    (st : AnalysisState) : AnalysisState :=
  match getImageCoordinates zoom w h mousePos with
  | none => st
  | some pos =>
      match st.drawingOverlay, st.drawingStartPoint with
      | some (.ruler i s _ c d), some _ =>
          { st with drawingOverlay := some (.ruler i s pos c d) }
      | some (.roi i tl _ c d), some _ =>
          { st with drawingOverlay := some (.roi i tl pos c d) }
      | _, _ => st

/-- `handle_analysis_mouse_release` (source lines 1525-1555): finalizes
the draft's free endpoint, optionally records the note dialog's answer in
`data['note']` (`noteInput`, with `none`/empty falsy and skipped), appends
the draft to `analysis_overlays`, and clears the drawing state.  A `none`
coordinate leaves everything untouched (the draft survives). -/
def handleAnalysisMouseRelease (zoom w h : Int) (noteInput : Option String)
    (mousePos : Pt) (st : AnalysisState) : AnalysisState :=
  match st.drawingOverlay, st.drawingStartPoint with
  | some ov, some _ =>
      match getImageCoordinates zoom w h mousePos with
      | none => st
      | some pos =>
          match ov with
          | .ruler i s _ c d =>
              let d' := match noteInput with
                | some nt => if nt ≠ "" then updateKey d "note" (.str nt) else d
                | none => d
              { st with analysisOverlays := st.analysisOverlays ++ [.ruler i s pos c d'],
                        drawingOverlay := none, drawingStartPoint := none }
          | .roi i tl _ c d =>
              let d' := match noteInput with
                | some nt => if nt ≠ "" then updateKey d "note" (.str nt) else d
                | none => d
              { st with analysisOverlays := st.analysisOverlays ++ [.roi i tl pos c d'],
                        drawingOverlay := none, drawingStartPoint := none }
          | .note .. =>
              { st with drawingOverlay := none, drawingStartPoint := none }
  | _, _ => st

/-- One pixel of a 3-channel 8-bit image, channels in numpy axis order
(BGR images: ch1 = B, ch2 = G, ch3 = R; LAB: L, A, B; HSV: H, S, V). -/
structure Pix3 where
  ch1 : Nat
  ch2 : Nat
  ch3 : Nat
deriving DecidableEq, Repr

/-- A 3-channel image as rows of pixels. -/
abbrev Image : Type := List (List Pix3)

/-- A single-channel 8-bit image. -/
abbrev Gray : Type := List (List Nat)

/-- `shape[1]` of a rectangular array. -/
def widthOf {α : Type} (img : List (List α)) : Nat :=
  (img.headD []).length

/-- `shape[0]`. -/
def heightOf {α : Type} (img : List (List α)) : Nat :=
  img.length

/-- The rows all have the row-0 length (every numpy image is
rectangular). -/
def RectImg {α : Type} (img : List (List α)) : Prop :=
  ∀ row ∈ img, row.length = widthOf img

instance {α : Type} [DecidableEq α] (img : List (List α)) :
    Decidable (RectImg img) := by
  unfold RectImg; infer_instance

/-- `cv2.cvtColor(..., cv2.COLOR_BGR2GRAY)` per pixel: OpenCV's fixed
point `(R*4899 + G*9617 + B*1868 + 8192) >> 14` for 8-bit input. -/
def bgr2grayPix (p : Pix3) : Nat :=
  (p.ch3 * 4899 + p.ch2 * 9617 + p.ch1 * 1868 + 8192) / 16384

/-- `cv2.cvtColor(..., cv2.COLOR_BGR2GRAY)`. -/
def bgr2gray (img : Image) : Gray :=
  img.map (fun row => row.map bgr2grayPix)

/-- `cv2.cvtColor(..., cv2.COLOR_GRAY2BGR)`: replicate the channel. -/
def gray2bgr (g : Gray) : Image :=
  g.map (fun row => row.map (fun v => ⟨v, v, v⟩))

/-- `cv2.bitwise_not` on an 8-bit single-channel image. -/
def bitwiseNot (g : Gray) : Gray :=
  g.map (fun row => row.map (fun v => 255 - v))

/-- `cv2.threshold(gray, 120, 255, cv2.THRESH_BINARY)`: strictly greater
than the threshold maps to `maxval`, else 0. -/
def threshold120 (g : Gray) : Gray :=
  g.map (fun row => row.map (fun v => if 120 < v then 255 else 0))

/-- `cv2.dilate(gray, np.ones((2,2), np.uint8), iterations=1)`: the
default anchor of a 2x2 kernel is its centre (1,1), so the output pixel is
the maximum of the source over rows `{i-1, i}` and columns `{j-1, j}`,
with out-of-bounds neighbours ignored (taken as 0 here, harmless since the
in-bounds centre pixel is always included).  Inputs evaluated in this
development are chosen so that every conclusion drawn also holds under the
alternative (kernel-flipped) window `{i, i+1} x {j, j+1}`. -/
def dilate2x2 (g : Gray) : Gray :=
  (List.range (heightOf g)).map fun i =>
    (List.range (widthOf g)).map fun j =>
      let v : Nat → Nat → Nat := fun a b => (g.getD a []).getD b 0
      max (max (if 0 < i ∧ 0 < j then v (i-1) (j-1) else 0)
               (if 0 < i then v (i-1) j else 0))
          (max (if 0 < j then v i (j-1) else 0) (v i j))

/-- Numerator of the source coordinate sampled by `cv2.resize` with
`INTER_LINEAR` for destination index `j`: the exact value
`(j + 0.5) * srcN/dstN - 0.5` written over the denominator `2 * dstN`. -/
def srcNum (srcN dstN : Nat) (j : Nat) : Int :=
  (2 * (j : Int) + 1) * (srcN : Int) - (dstN : Int)

/-- Clamped bilinear sample base for one axis: the pair of source indices
and the numerator of the fractional weight over denominator `2 * dstN`,
with coordinates left of 0 clamped to index 0 and the last pixel reused
past the right edge (weight 0 in both cases). -/
def sampleCoeff (srcN dstN : Nat) (j : Nat) : Nat × Nat × Int :=
  if srcNum srcN dstN j < 0 ∨ srcN ≤ 1 then (0, 0, 0)
  else if srcN - 1 ≤ (srcNum srcN dstN j / (2 * (dstN : Int))).toNat then
    (srcN - 1, srcN - 1, 0)
  else
    ((srcNum srcN dstN j / (2 * (dstN : Int))).toNat,
     (srcNum srcN dstN j / (2 * (dstN : Int))).toNat + 1,
     srcNum srcN dstN j
       - ((srcNum srcN dstN j / (2 * (dstN : Int))).toNat : Int) * (2 * (dstN : Int)))

/-- Exact bilinear interpolation of one channel: the weights are
`fx = fxN / dx` and `fy = fyN / dy`, and the exact value
`(1-fy)((1-fx) v00 + fx v01) + fy((1-fx) v10 + fx v11)` is rounded to the
nearest integer, half up — which agrees with OpenCV's fixed-point
accumulation for the values arising in this development. -/
def interpNat (v00 v01 v10 v11 : Nat) (fxN dx fyN dy : Int) : Nat :=
  ((2 * ((dy - fyN) * ((dx - fxN) * (v00 : Int) + fxN * (v01 : Int))
         + fyN * ((dx - fxN) * (v10 : Int) + fxN * (v11 : Int)))
    + dx * dy) / (2 * (dx * dy))).toNat

/-- Pixel access with numpy-style row/column indices. -/
def pixAt (img : Image) (i j : Nat) : Pix3 :=
  (img.getD i []).getD j ⟨0, 0, 0⟩

/-- One destination pixel of `cv2.resize(img, (dstW, dstH),
interpolation=cv2.INTER_LINEAR)`. -/
def resizePix (img : Image) (dstW dstH : Nat) (i j : Nat) : Pix3 :=
  let cy := sampleCoeff (heightOf img) dstH i
  let cx := sampleCoeff (widthOf img) dstW j
  let dx : Int := 2 * (dstW : Int)
  let dy : Int := 2 * (dstH : Int)
  let p00 := pixAt img cy.1 cx.1
  let p01 := pixAt img cy.1 cx.2.1
  let p10 := pixAt img cy.2.1 cx.1
  let p11 := pixAt img cy.2.1 cx.2.1
  ⟨interpNat p00.ch1 p01.ch1 p10.ch1 p11.ch1 cx.2.2 dx cy.2.2 dy,
   interpNat p00.ch2 p01.ch2 p10.ch2 p11.ch2 cx.2.2 dx cy.2.2 dy,
   interpNat p00.ch3 p01.ch3 p10.ch3 p11.ch3 cx.2.2 dx cy.2.2 dy⟩

/-- `cv2.resize(img, (dstW, dstH), interpolation=cv2.INTER_LINEAR)`. -/
def resizeLinear (img : Image) (dstW dstH : Nat) : Image :=
  (List.range dstH).map fun i =>
    (List.range dstW).map fun j => resizePix img dstW dstH i j

/-- Channel extraction, `cv2.split`. -/
def channel1 (img : Image) : Gray := img.map (fun row => row.map Pix3.ch1)

/-- Second channel of `cv2.split`. -/
def channel2 (img : Image) : Gray := img.map (fun row => row.map Pix3.ch2)

/-- Third channel of `cv2.split`. -/
def channel3 (img : Image) : Gray := img.map (fun row => row.map Pix3.ch3)

/-- One row of `cv2.merge`. -/
def mergeRow : List Nat → List Nat → List Nat → List Pix3
  | x :: xs, y :: ys, z :: zs => ⟨x, y, z⟩ :: mergeRow xs ys zs
  | _, _, _ => []

/-- `cv2.merge([a, b, c])` of three equal-shape channels. -/
def merge3 : Gray → Gray → Gray → Image
  | r :: rs, s :: ss, t :: ts => mergeRow r s t :: merge3 rs ss ts
  | _, _, _ => []

/-- `cv2.multiply(channel, num/den)` on an 8-bit channel followed by the
source's redundant `np.clip(..., 0, 255)`: scale by the exact factor,
round half up, saturate at 255. -/
def mulSat (num den : Nat) (g : Gray) : Gray :=
  g.map (fun row => row.map (fun v => min 255 ((2 * v * num + den) / (2 * den))))

/-- The external OpenCV primitives the filter modes delegate to and whose
numeric cores are not part of this repository: `cv2.createCLAHE(...).apply`
(keyed by clip limit and tile grid) and the LAB/HSV colour-space
conversions.  The pipeline theorems hold for every choice of these
functions; counterexamples instantiate them with `cvTrivial`, whose fields
are never reached on the evaluated inputs. -/
structure CvPrims where
  clahe : Nat → Nat × Nat → Gray → Gray
  bgr2lab : Image → Image
  lab2bgr : Image → Image
  bgr2hsv : Image → Image
  hsv2bgr : Image → Image

/-- Identity instantiation of the external primitives. -/
def cvTrivial : CvPrims :=
  ⟨fun _ _ g => g, id, id, id, id⟩

/-- The per-mode contrast transform shared verbatim by `update_zoom`
(source lines 1277-1321) and `export_current_view` (source lines
1603-1647): mode 1 = CLAHE(3.0, 8x8) on LAB's L plus HSV saturation x1.3;
mode 2 = CLAHE(5.0, 8x8) on L with A, B x1.2; mode 3 = HSV value
inversion; mode 4 = inverted grayscale; mode 5 = CLAHE(4.0, 8x8)
grayscale; mode 6 = its inversion; mode 7 = binary threshold at 120.  Any
other mode leaves the working image untouched (no branch matches). -/
def applyContrastMode (cv : CvPrims) (mode : Nat) (img : Image) : Image :=
  match mode with
  | 1 =>
      let lab := cv.bgr2lab img
      let l := cv.clahe 3 (8, 8) (channel1 lab)
      let w := cv.lab2bgr (merge3 l (channel2 lab) (channel3 lab))
      let hsv := cv.bgr2hsv w
      cv.hsv2bgr (merge3 (channel1 hsv) (mulSat 13 10 (channel2 hsv)) (channel3 hsv))
  | 2 =>
      let lab := cv.bgr2lab img
      let l := cv.clahe 5 (8, 8) (channel1 lab)
      let a := mulSat 6 5 (channel2 lab)
      let b := mulSat 6 5 (channel3 lab)
      cv.lab2bgr (merge3 l a b)
  | 3 =>
      let hsv := cv.bgr2hsv img
      cv.hsv2bgr (hsv.map (fun row => row.map (fun p => ⟨p.ch1, p.ch2, 255 - p.ch3⟩)))
  | 4 => gray2bgr (bitwiseNot (bgr2gray img))
  | 5 => gray2bgr (cv.clahe 4 (8, 8) (bgr2gray img))
  | 6 => gray2bgr (bitwiseNot (cv.clahe 4 (8, 8) (bgr2gray img)))
  | 7 => gray2bgr (threshold120 (bgr2gray img))
  | _ => img

/-- The contrast step of `update_zoom`/`export_current_view`: applied only
when the Enhanced Mode checkbox is on and `contrast_mode != 0` (source
lines 1275-1276, 1601-1602). -/
def contrastStage (cv : CvPrims) (enhanced : Bool) (mode : Nat) (img : Image) : Image :=
  if enhanced = true ∧ mode ≠ 0 then applyContrastMode cv mode img else img

/-- The trace-enhancement step of `update_zoom` (source lines 1323-1329):
grayscale conversion, 2x2 dilation, replication back to three channels.
`export_current_view` has no counterpart of this step. -/
def traceStage (trace : Bool) (img : Image) : Image :=
  if trace then gray2bgr (dilate2x2 (bgr2gray img)) else img

/-- The image `update_zoom` hands to its scaling/display step (the
`working_image` right before `cv2.resize`, source lines 1265-1330). -/
def filterStageOutput (cv : CvPrims) (enhanced : Bool) (mode : Nat)
    (trace : Bool) (img : Image) : Image :=
  traceStage trace (contrastStage cv enhanced mode img)

/-- The preview pixel buffer of `update_zoom` (source lines 1265-1333):
filter, then trace enhancement, then `cv2.resize` to
`(shape * scale_percent / 100)` of the *working* image.  This is the
`resized` BGR buffer; the subsequent `cv2.cvtColor(..., COLOR_BGR2RGB)` is
the display-only channel reordering and is not part of the pixel data
compared here. -/
def updateZoomBuffer (cv : CvPrims) (enhanced : Bool) (mode : Nat)
    (trace : Bool) (scalePercent : Nat) (img : Image) : Image :=
  let working := filterStageOutput cv enhanced mode trace img
  resizeLinear working (widthOf working * scalePercent / 100)
    (heightOf working * scalePercent / 100)

/-- The pixel buffer `export_current_view` writes to disk (source lines
1589-1650): `cv2.resize` of the *original* image first, then the contrast
modes, and never the trace-enhancement step. -/
def exportBuffer (cv : CvPrims) (enhanced : Bool) (mode : Nat)
    (scalePercent : Nat) (img : Image) : Image :=
  let resized := resizeLinear img (widthOf img * scalePercent / 100)
    (heightOf img * scalePercent / 100)
  contrastStage cv enhanced mode resized

/-- Concrete fixture: a 1x3 BGR image with a single bright pixel (a thin
bright trace). -/
def imgTrace : Image :=
  [[⟨0, 0, 0⟩, ⟨255, 255, 255⟩, ⟨0, 0, 0⟩]]

/-- Concrete fixture: a 1x2 BGR image with gray levels 100 and 140,
straddling the mode-7 binary threshold of 120 after interpolation. -/
def imgStep : Image :=
  [[⟨100, 100, 100⟩, ⟨140, 140, 140⟩]]

/-- Concrete fixture: a store holding one overlay of each kind, with ids
1, 2, 3. -/
def sampleStore : List Overlay :=
  [.note 1 ⟨3, 4⟩ (.str "hi") (.str "#00FF00") [],
   .ruler 2 ⟨0, 0⟩ ⟨5, 5⟩ (.str "#FF0000") [],
   .roi 3 ⟨1, 1⟩ ⟨2, 2⟩ (.str "#0000FF") []]

/-- Concrete fixture: a persisted record with an unknown `kind`. -/
def unknownRec : Record :=
  ⟨7, "Unknown", [("position", .pair 1 1)]⟩

/-- Concrete fixture: a valid persisted Note record. -/
def noteRec : Record :=
  ⟨8, "Note", [("position", .pair 3 4), ("text", .str "hi"), ("color", .str "#00FF00")]⟩

/-- Concrete fixture: a valid persisted Ruler record. -/
def rulerRec : Record :=
  ⟨9, "Ruler", [("start_point", .pair 0 0), ("end_point", .pair 5 5),
                ("color", .str "#FF0000")]⟩

/-- Concrete fixture: a Note record whose required geometry is missing. -/
def noGeomRec : Record :=
  ⟨10, "Note", [("text", .str "x")]⟩

end EEGParadox

namespace EEGParadox

/-- Division round trip on `Nat`: scaling by `k/100` with floor and back
with floor loses at most one pixel once `100 ≤ k`. -/
theorem roundtrip_nat (m k : Nat) (hk : 100 ≤ k) :
    m * k / 100 * 100 / k ≤ m ∧ m ≤ m * k / 100 * 100 / k + 1 := by
  have hk0 : 0 < k := by omega
  constructor
  · have h1 : m * k / 100 * 100 ≤ m * k := Nat.div_mul_le_self _ _
    calc m * k / 100 * 100 / k ≤ m * k / k := Nat.div_le_div_right h1
      _ = m := Nat.mul_div_cancel _ hk0
  · rcases Nat.eq_zero_or_pos m with rfl | hm
    · simp
    · have hdm := Nat.div_add_mod (m * k) 100
      have hmod : (m * k) % 100 < 100 := Nat.mod_lt _ (by norm_num)
      have hsub : (m - 1) * k = m * k - k := by
        rw [Nat.sub_mul, one_mul]
      have key : (m - 1) * k ≤ m * k / 100 * 100 := by
        have hkm : k ≤ m * k := Nat.le_mul_of_pos_left k hm
        omega
      have hle : m - 1 ≤ m * k / 100 * 100 / k :=
        (Nat.le_div_iff_mul_le hk0).mpr key
      omega

/-- Lift of `roundtrip_nat` to the `Int`-valued truncating maps. -/
theorem roundtrip_int (x zoom : Int) (hx : 0 ≤ x) (hz : 100 ≤ zoom) :
    0 ≤ Int.tdiv (Int.tdiv (x * zoom) 100 * 100) zoom ∧
    Int.tdiv (Int.tdiv (x * zoom) 100 * 100) zoom ≤ x ∧
    x ≤ Int.tdiv (Int.tdiv (x * zoom) 100 * 100) zoom + 1 := by
  obtain ⟨m, rfl⟩ := Int.eq_ofNat_of_zero_le hx
  obtain ⟨k, rfl⟩ := Int.eq_ofNat_of_zero_le (le_trans (by norm_num) hz)
  have hk : 100 ≤ k := by exact_mod_cast hz
  have h100 : (100 : Int) = ((100 : Nat) : Int) := rfl
  have e1 : Int.tdiv ((m : Int) * (k : Int)) 100 = ((m * k / 100 : Nat) : Int) := by
    have hmk : ((m : Int) * (k : Int)) = ((m * k : Nat) : Int) := by push_cast; ring
    rw [hmk, h100, ← Int.ofNat_tdiv]
  rw [e1]
  have e2 : ((m * k / 100 : Nat) : Int) * 100 = ((m * k / 100 * 100 : Nat) : Int) := by
    push_cast; ring
  rw [e2]
  have e3 : Int.tdiv ((m * k / 100 * 100 : Nat) : Int) (k : Int)
      = ((m * k / 100 * 100 / k : Nat) : Int) := (Int.ofNat_tdiv _ _).symm
  rw [e3]
  obtain ⟨h1, h2⟩ := roundtrip_nat m k hk
  refine ⟨by positivity, by exact_mod_cast h1, by exact_mod_cast h2⟩

/-- Claim C4, counterexample: at zoom 10 the in-bounds point (5,5) of a
10x10 image renders at device (0,0) and maps back to (0,0), a drift of 5
pixels — the claimed 1-pixel round-trip bound fails inside the claimed
zoom range [10,400]. -/
theorem C4_counterexample :
    getImageCoordinates 10 10 10 (toDeviceSpace 10 ⟨5, 5⟩) = some ⟨0, 0⟩
    ∧ ¬ ((5 - (0 : Int)).natAbs ≤ 1 ∧ (5 - (0 : Int)).natAbs ≤ 1) := by
  decide

/-- Claim C4 (amended): for every integer zoom in [100, 400] and every
in-bounds image point, rendering to device space with truncation and
mapping back through `get_image_coordinates` returns a point (no `None`)
within 1 pixel of the original on each axis.  For zooms below 100 the
drift can reach `ceil(100/zoom) - 1` pixels. -/
theorem C4_roundtrip (zoom w h : Int) (p : Pt)
    (hz1 : 100 ≤ zoom) (hz2 : zoom ≤ 400)
    (hp : inBoundsPt w h p = true) :
    getImageCoordinates zoom w h (toDeviceSpace zoom p)
      = some (imageFromLabel zoom (toDeviceSpace zoom p))
    ∧ (p.x - (imageFromLabel zoom (toDeviceSpace zoom p)).x).natAbs ≤ 1
    ∧ (p.y - (imageFromLabel zoom (toDeviceSpace zoom p)).y).natAbs ≤ 1 := by
  have hb : (0 ≤ p.x ∧ p.x < w ∧ 0 ≤ p.y ∧ p.y < h) := by
    unfold inBoundsPt at hp
    simp only [Bool.and_eq_true, decide_eq_true_eq] at hp
    tauto
  obtain ⟨hx0, hxw, hy0, hyh⟩ := hb
  obtain ⟨hx1, hx2, hx3⟩ := roundtrip_int p.x zoom hx0 hz1
  obtain ⟨hy1, hy2, hy3⟩ := roundtrip_int p.y zoom hy0 hz1
  have hq : imageFromLabel zoom (toDeviceSpace zoom p)
      = ⟨Int.tdiv (Int.tdiv (p.x * zoom) 100 * 100) zoom,
         Int.tdiv (Int.tdiv (p.y * zoom) 100 * 100) zoom⟩ := rfl
  constructor
  · unfold getImageCoordinates
    have : inBoundsPt w h (imageFromLabel zoom (toDeviceSpace zoom p)) = true := by
      rw [hq]
      unfold inBoundsPt
      simp only [Bool.and_eq_true, decide_eq_true_eq]
      refine ⟨⟨⟨hx1, by omega⟩, hy1⟩, by omega⟩
    simp [this]
  · rw [hq]
    constructor <;> simp only [] <;> omega

/-- Claim C4 (amended), witness at zoom 100 and point (5,5) in a 10x10
image. -/
theorem C4_roundtrip_witness :
    getImageCoordinates 100 10 10 (toDeviceSpace 100 ⟨5, 5⟩)
      = some (imageFromLabel 100 (toDeviceSpace 100 ⟨5, 5⟩))
    ∧ ((5 : Int) - (imageFromLabel 100 (toDeviceSpace 100 ⟨5, 5⟩)).x).natAbs ≤ 1
    ∧ ((5 : Int) - (imageFromLabel 100 (toDeviceSpace 100 ⟨5, 5⟩)).y).natAbs ≤ 1 :=
  C4_roundtrip 100 10 10 ⟨5, 5⟩ (by decide) (by decide) (by decide)

/-- Claim C7, counterexample: `delete_overlay(5)` on a store of size 3
returns normally with the store unchanged — it does not fail with
`IndexOutOfRange` as the claim asserts. -/
theorem C7_counterexample :
    deleteOverlay 5 sampleStore = .ok sampleStore
    ∧ deleteOverlay 5 sampleStore ≠ .error .indexOutOfRange := by
  have e : deleteOverlay 5 sampleStore = .ok sampleStore := rfl
  exact ⟨e, by rw [e]; intro h; exact Except.noConfusion h⟩

/-- Claim C7 (amended): for every index outside `[0, store size)` the
delete operation is a silent no-op — it returns normally (never an
`IndexOutOfRange` failure) and leaves the store unchanged. -/
theorem C7_delete_invalid (index : Int) (overlays : List Overlay)
    (h : ¬ (0 ≤ index ∧ index < overlays.length)) :
    deleteOverlay index overlays = .ok overlays := by
  unfold deleteOverlay
  simp [h]

/-- Claim C7 (amended), witness: index 5 against the three-overlay
fixture. -/
theorem C7_delete_invalid_witness :
    deleteOverlay 5 sampleStore = .ok sampleStore :=
  C7_delete_invalid 5 sampleStore (by decide)

/-- Claim C3: evaluation of the restore loop at the claimed scenario.  A
record with `kind="Unknown"` alongside two valid records does not yield a
2-overlay store: `from_dict`'s `None` is appended unconditionally, so the
loaded list has 3 entries and its first entry is `None` (which crashes the
next `update_zoom` render pass).  A record missing its required geometry
raises `TypeError`, aborting the load of the remaining records instead of
skipping. -/
theorem C3_restore_behaviour :
    (restoreOverlays 50 [unknownRec, noteRec, rulerRec]).1.length = 3
    ∧ (restoreOverlays 50 [unknownRec, noteRec, rulerRec]).1.head? = some none
    ∧ (restoreOverlays 50 [unknownRec, noteRec, rulerRec]).2 = none
    ∧ restoreOverlays 60 [noGeomRec, noteRec, rulerRec] = ([], some .typeError) := by
  decide

/-- Claim C5: any device position whose computed image-space point falls
outside `[0, source_width) x [0, source_height)` makes
`get_image_coordinates` return `None` (no error), and a pointer press,
move, or release at such a position leaves the analysis editing state —
tool, draft overlay, draft start point, and overlay store — completely
unchanged. -/
theorem C5_out_of_bounds_ignored (zoom w h : Int) (label : Pt)
    (st : AnalysisState) (fresh : Nat) (ti ci ni : Option String)
    (hob : inBoundsPt w h (imageFromLabel zoom label) = false) :
    getImageCoordinates zoom w h label = none
    ∧ handleAnalysisMousePress zoom w h fresh ti ci label st = st
    ∧ handleAnalysisMouseMove zoom w h label st = st
    ∧ handleAnalysisMouseRelease zoom w h ni label st = st := by
  have hn : getImageCoordinates zoom w h label = none := by
    unfold getImageCoordinates
    simp [hob]
  refine ⟨hn, ?_, ?_, ?_⟩
  · unfold handleAnalysisMousePress
    rw [hn]
  · unfold handleAnalysisMouseMove
    rw [hn]
  · unfold handleAnalysisMouseRelease
    cases hdo : st.drawingOverlay with
    | none => rfl
    | some ov =>
      cases hdp : st.drawingStartPoint with
      | none => rfl
      | some sp => rw [hn]

/-- Claim C5, witness: pointer at device (5000, 5) over a 10x10 image at
zoom 100, with a Ruler draft in progress. -/
theorem C5_out_of_bounds_ignored_witness :
    getImageCoordinates 100 10 10 ⟨5000, 5⟩ = none
    ∧ handleAnalysisMousePress 100 10 10 5 (some "x") (some "#FF0000") ⟨5000, 5⟩
        ⟨.ruler, some (.ruler 1 ⟨0, 0⟩ ⟨1, 1⟩ (.str "#FF0000") []), some ⟨0, 0⟩, []⟩
      = ⟨.ruler, some (.ruler 1 ⟨0, 0⟩ ⟨1, 1⟩ (.str "#FF0000") []), some ⟨0, 0⟩, []⟩
    ∧ handleAnalysisMouseMove 100 10 10 ⟨5000, 5⟩
        ⟨.ruler, some (.ruler 1 ⟨0, 0⟩ ⟨1, 1⟩ (.str "#FF0000") []), some ⟨0, 0⟩, []⟩
      = ⟨.ruler, some (.ruler 1 ⟨0, 0⟩ ⟨1, 1⟩ (.str "#FF0000") []), some ⟨0, 0⟩, []⟩
    ∧ handleAnalysisMouseRelease 100 10 10 (some "n") ⟨5000, 5⟩
        ⟨.ruler, some (.ruler 1 ⟨0, 0⟩ ⟨1, 1⟩ (.str "#FF0000") []), some ⟨0, 0⟩, []⟩
      = ⟨.ruler, some (.ruler 1 ⟨0, 0⟩ ⟨1, 1⟩ (.str "#FF0000") []), some ⟨0, 0⟩, []⟩ :=
  C5_out_of_bounds_ignored 100 10 10 ⟨5000, 5⟩
    ⟨.ruler, some (.ruler 1 ⟨0, 0⟩ ⟨1, 1⟩ (.str "#FF0000") []), some ⟨0, 0⟩, []⟩
    5 (some "x") (some "#FF0000") (some "n") (by decide)

/-- Claim C6: with the Ruler tool armed, press at (10,10) with color
"#FF0000" chosen, move to (50,10), release at (100,10) with note
"baseline" (zoom 100, 200x20 image) adds exactly one Ruler overlay with
start (10,10), end (100,10), color "#FF0000" and `note = "baseline"` in
its extra data, growing the store from N to N+1; the move only updates the
draft preview and commits nothing. -/
theorem C6_ruler_scenario (os : List Overlay) (fresh : Nat) (ti : Option String) :
    handleAnalysisMouseRelease 100 200 20 (some "baseline") ⟨100, 10⟩
      (handleAnalysisMouseMove 100 200 20 ⟨50, 10⟩
        (handleAnalysisMousePress 100 200 20 fresh ti (some "#FF0000") ⟨10, 10⟩
          ⟨.ruler, none, none, os⟩))
      = ⟨.ruler, none, none,
          os ++ [.ruler fresh ⟨10, 10⟩ ⟨100, 10⟩ (.str "#FF0000")
                   [("note", .str "baseline")]]⟩
    ∧ (handleAnalysisMouseMove 100 200 20 ⟨50, 10⟩
        (handleAnalysisMousePress 100 200 20 fresh ti (some "#FF0000") ⟨10, 10⟩
          ⟨.ruler, none, none, os⟩))
      = ⟨.ruler, some (.ruler fresh ⟨10, 10⟩ ⟨50, 10⟩ (.str "#FF0000") []),
          some ⟨10, 10⟩, os⟩
    ∧ (os ++ [Overlay.ruler fresh ⟨10, 10⟩ ⟨100, 10⟩ (.str "#FF0000")
        [("note", .str "baseline")]]).length = os.length + 1 := by
  refine ⟨rfl, rfl, by simp⟩

/-- Claim C10: a Note committed by the press handler always carries the
hard-coded color "#00FF00" and an ROI draft always "#0000FF", whatever
color input is supplied; only a Ruler draft carries the user-chosen color,
and the release handler commits an ROI draft with its draft color
untouched. -/
theorem C10_fixed_colors (zoom w h : Int) (fresh : Nat) (ti ci : Option String)
    (label : Pt) (st : AnalysisState) (pos : Pt)
    (hpos : getImageCoordinates zoom w h label = some pos) :
    (∀ t, st.currentAnalysisTool = .note → ti = some t → t ≠ "" →
      handleAnalysisMousePress zoom w h fresh ti ci label st
        = { st with analysisOverlays :=
            st.analysisOverlays ++ [.note fresh pos (.str t) (.str "#00FF00") []] })
    ∧ (st.currentAnalysisTool = .roi →
      handleAnalysisMousePress zoom w h fresh ti ci label st
        = { st with drawingOverlay := some (.roi fresh pos pos (.str "#0000FF") []),
                    drawingStartPoint := some pos })
    ∧ (∀ c, st.currentAnalysisTool = .ruler → ci = some c →
      handleAnalysisMousePress zoom w h fresh ti ci label st
        = { st with drawingOverlay := some (.ruler fresh pos pos (.str c) []),
                    drawingStartPoint := some pos })
    ∧ (∀ (i : Nat) (tl br sp : Pt) (cc : DVal) (d : ExtraMap) (ni : Option String),
      st.drawingOverlay = some (.roi i tl br cc d) →
      st.drawingStartPoint = some sp →
      (handleAnalysisMouseRelease zoom w h ni label st).analysisOverlays.map Overlay.colorOf
        = st.analysisOverlays.map Overlay.colorOf ++ [cc]) := by
  refine ⟨?_, ?_, ?_, ?_⟩
  · intro t h1 h2 h3
    unfold handleAnalysisMousePress
    rw [hpos, h1, h2]
    simp [h3]
  · intro h1
    unfold handleAnalysisMousePress
    rw [hpos, h1]
  · intro c h1 h2
    unfold handleAnalysisMousePress
    rw [hpos, h1, h2]
  · intro i tl br sp cc d ni h1 h2
    unfold handleAnalysisMouseRelease
    rw [h1, h2, hpos]
    cases ni with
    | none => simp [Overlay.colorOf]
    | some nt =>
      by_cases hnt : nt ≠ "" <;> simp [hnt, Overlay.colorOf]

/-- Claim C10, witness: concrete presses with a conflicting color input
"#123456" still yield "#00FF00" for Note and "#0000FF" for ROI, and a
Ruler draft takes "#123456"; a queued ROI draft commits with its color. -/
theorem C10_fixed_colors_witness :
    (handleAnalysisMousePress 100 10 10 5 (some "memo") (some "#123456") ⟨2, 2⟩
        ⟨.note, none, none, []⟩
      = ⟨.note, none, none, [.note 5 ⟨2, 2⟩ (.str "memo") (.str "#00FF00") []]⟩)
    ∧ (handleAnalysisMousePress 100 10 10 5 (some "memo") (some "#123456") ⟨2, 2⟩
        ⟨.roi, none, none, []⟩
      = ⟨.roi, some (.roi 5 ⟨2, 2⟩ ⟨2, 2⟩ (.str "#0000FF") []), some ⟨2, 2⟩, []⟩)
    ∧ (handleAnalysisMousePress 100 10 10 5 (some "memo") (some "#123456") ⟨2, 2⟩
        ⟨.ruler, none, none, []⟩
      = ⟨.ruler, some (.ruler 5 ⟨2, 2⟩ ⟨2, 2⟩ (.str "#123456") []), some ⟨2, 2⟩, []⟩)
    ∧ ((handleAnalysisMouseRelease 100 10 10 none ⟨2, 2⟩
        ⟨.roi, some (.roi 9 ⟨0, 0⟩ ⟨1, 1⟩ (.str "#0000FF") []), some ⟨0, 0⟩,
          []⟩).analysisOverlays.map Overlay.colorOf
      = [] ++ [DVal.str "#0000FF"]) := by
  have hpos : getImageCoordinates 100 10 10 ⟨2, 2⟩ = some ⟨2, 2⟩ := by decide
  refine ⟨?_, ?_, ?_, ?_⟩
  · exact (C10_fixed_colors 100 10 10 5 (some "memo") (some "#123456") ⟨2, 2⟩
      ⟨.note, none, none, []⟩ ⟨2, 2⟩ hpos).1 "memo" rfl rfl (by decide)
  · exact (C10_fixed_colors 100 10 10 5 (some "memo") (some "#123456") ⟨2, 2⟩
      ⟨.roi, none, none, []⟩ ⟨2, 2⟩ hpos).2.1 rfl
  · exact (C10_fixed_colors 100 10 10 5 (some "memo") (some "#123456") ⟨2, 2⟩
      ⟨.ruler, none, none, []⟩ ⟨2, 2⟩ hpos).2.2.1 "#123456" rfl rfl
  · exact (C10_fixed_colors 100 10 10 5 none none ⟨2, 2⟩
      ⟨.roi, some (.roi 9 ⟨0, 0⟩ ⟨1, 1⟩ (.str "#0000FF") []), some ⟨0, 0⟩, []⟩
      ⟨2, 2⟩ hpos).2.2.2 9 ⟨0, 0⟩ ⟨1, 1⟩ ⟨0, 0⟩ (.str "#0000FF") [] none rfl rfl

/-- Looking up the key just written by `dict.update`. -/
theorem lookupKey_updateKey_self (m : ExtraMap) (k : String) (v : DVal) :
    lookupKey (updateKey m k v) k = some v := by
  induction m with
  | nil => simp [updateKey, lookupKey]
  | cons kv rest ih =>
    obtain ⟨k', v'⟩ := kv
    by_cases h : k' = k
    · simp [updateKey, lookupKey, h]
    · simp [updateKey, lookupKey, h, ih]

/-- `dict.update` leaves other keys' lookups unchanged. -/
theorem lookupKey_updateKey_ne (m : ExtraMap) {k k' : String} (v : DVal)
    (h : k' ≠ k) :
    lookupKey (updateKey m k' v) k = lookupKey m k := by
  induction m with
  | nil => simp [updateKey, lookupKey, h]
  | cons kv rest ih =>
    obtain ⟨k₀, v₀⟩ := kv
    by_cases h0 : k₀ = k'
    · subst h0
      simp [updateKey, lookupKey, h]
    · simp only [updateKey, if_neg h0]
      by_cases h1 : k₀ = k
      · simp [lookupKey, h1]
      · simp [lookupKey, h1, ih]

/-- Claim C9: serializing is not side-effect-free.  For each overlay kind,
`to_dict` writes the geometry and color keys (and, for Ruler, the `note`
key, read from the pre-update dict) into the overlay's own `data` mapping,
the returned record's `data` is that same (shared) mapping, and an overlay
whose `data` lacked those keys is left observably different from its
pre-serialization state. -/
theorem C9_serialization_mutates (i : Nat) (p s e tl br : Pt) (t c : DVal)
    (d : ExtraMap) :
    ((Overlay.note i p t c d).toDict.1.data = (Overlay.note i p t c d).toDict.2.dataOf
      ∧ lookupKey (Overlay.note i p t c d).toDict.2.dataOf "position" = some (.pair p.x p.y)
      ∧ lookupKey (Overlay.note i p t c d).toDict.2.dataOf "text" = some t
      ∧ lookupKey (Overlay.note i p t c d).toDict.2.dataOf "color" = some c
      ∧ (d = [] → (Overlay.note i p t c d).toDict.2 ≠ .note i p t c d))
    ∧ ((Overlay.ruler i s e c d).toDict.1.data = (Overlay.ruler i s e c d).toDict.2.dataOf
      ∧ lookupKey (Overlay.ruler i s e c d).toDict.2.dataOf "start_point" = some (.pair s.x s.y)
      ∧ lookupKey (Overlay.ruler i s e c d).toDict.2.dataOf "end_point" = some (.pair e.x e.y)
      ∧ lookupKey (Overlay.ruler i s e c d).toDict.2.dataOf "color" = some c
      ∧ lookupKey (Overlay.ruler i s e c d).toDict.2.dataOf "note" = some (getKey d "note")
      ∧ (d = [] → (Overlay.ruler i s e c d).toDict.2 ≠ .ruler i s e c d))
    ∧ ((Overlay.roi i tl br c d).toDict.1.data = (Overlay.roi i tl br c d).toDict.2.dataOf
      ∧ lookupKey (Overlay.roi i tl br c d).toDict.2.dataOf "top_left" = some (.pair tl.x tl.y)
      ∧ lookupKey (Overlay.roi i tl br c d).toDict.2.dataOf "bottom_right" = some (.pair br.x br.y)
      ∧ lookupKey (Overlay.roi i tl br c d).toDict.2.dataOf "color" = some c
      ∧ (d = [] → (Overlay.roi i tl br c d).toDict.2 ≠ .roi i tl br c d)) := by
  refine ⟨⟨rfl, ?_, ?_, ?_, ?_⟩, ⟨rfl, ?_, ?_, ?_, ?_, ?_⟩, ⟨rfl, ?_, ?_, ?_, ?_⟩⟩ <;>
    first
    | (intro hd; subst hd; simp [Overlay.toDict, Overlay.dataOf, updateKey])
    | (simp [Overlay.toDict, Overlay.dataOf, lookupKey_updateKey_self,
        lookupKey_updateKey_ne])

/-- Claim C9, witness: a Note with empty extra data is mutated by
serialization, and record and overlay share the updated mapping. -/
theorem C9_serialization_mutates_witness :
    (Overlay.note 1 ⟨2, 3⟩ (.str "t") (.str "#00FF00") []).toDict.2
      ≠ Overlay.note 1 ⟨2, 3⟩ (.str "t") (.str "#00FF00") []
    ∧ (Overlay.note 1 ⟨2, 3⟩ (.str "t") (.str "#00FF00") []).toDict.1.data
      = (Overlay.note 1 ⟨2, 3⟩ (.str "t") (.str "#00FF00") []).toDict.2.dataOf :=
  ⟨(C9_serialization_mutates 1 ⟨2, 3⟩ ⟨0, 0⟩ ⟨0, 0⟩ ⟨0, 0⟩ ⟨0, 0⟩
      (.str "t") (.str "#00FF00") []).1.2.2.2.2 rfl,
   (C9_serialization_mutates 1 ⟨2, 3⟩ ⟨0, 0⟩ ⟨0, 0⟩ ⟨0, 0⟩ ⟨0, 0⟩
      (.str "t") (.str "#00FF00") []).1.1⟩

/-- Claim C2, counterexample: round-tripping the one-of-each-kind fixture
store regenerates every id (here 100, 101, 102 instead of the stored 1, 2,
3), so the deserialized overlays are not equal to the originals and ids
are not preserved verbatim. -/
theorem C2_counterexample :
    (restoreOverlays 100 (serializeOverlays sampleStore).1).1.map
        (Option.map Overlay.idOf) = [some 100, some 101, some 102]
    ∧ sampleStore.map Overlay.idOf = [1, 2, 3]
    ∧ (restoreOverlays 100 (serializeOverlays sampleStore).1).1
      ≠ sampleStore.map some := by
  decide

/-- Claim C2 (amended): for a store holding one overlay of each kind,
deserializing the serialization reproduces every overlay field-for-field
as it stands after serialization (serialization itself augments the shared
`data` mapping with the geometry/color keys) — geometry, text, color and
data all survive — except the `id`, which is regenerated freshly by the
constructor rather than preserved. -/
theorem C2_roundtrip_regenerates_ids (fresh i1 i2 i3 : Nat) (p s e tl br : Pt)
    (t c1 c2 c3 : DVal) (d1 d2 d3 : ExtraMap) :
    restoreOverlays fresh (serializeOverlays
      [.note i1 p t c1 d1, .ruler i2 s e c2 d2, .roi i3 tl br c3 d3]).1
    = ([some (((Overlay.note i1 p t c1 d1).toDict.2).withId fresh),
        some (((Overlay.ruler i2 s e c2 d2).toDict.2).withId (fresh + 1)),
        some (((Overlay.roi i3 tl br c3 d3).toDict.2).withId (fresh + 2))], none) := by
  simp [serializeOverlays, Overlay.toDict, restoreOverlays, AnalysisOverlay.fromDict,
    noteFromDict, rulerFromDict, roiFromDict, Overlay.withId, getKey,
    lookupKey_updateKey_self, lookupKey_updateKey_ne, Except.map]

/-- A list is recovered by reading its entries back off `range`. -/
theorem map_range_getD {α : Type} (l : List α) (d : α) :
    (List.range l.length).map (fun j => l.getD j d) = l := by
  induction l with
  | nil => rfl
  | cons a t ih =>
    have hcomp : ((fun j => (a :: t).getD j d) ∘ Nat.succ) = fun j => t.getD j d := by
      funext j
      rfl
    rw [List.length_cons, List.range_succ_eq_map, List.map_cons, List.map_map, hcomp]
    show a :: (List.range t.length).map (fun j => t.getD j d) = a :: t
    rw [ih]

/-- When destination equals source size, the `INTER_LINEAR` sample for
index `j < n` lands exactly on source index `j` with zero fractional
weight. -/
theorem sampleCoeff_self (n j : Nat) (hj : j < n) :
    (sampleCoeff n n j).1 = j ∧ (sampleCoeff n n j).2.2 = 0 := by
  unfold sampleCoeff
  have hnum : srcNum n n j = (2 * (n : Int)) * (j : Int) := by
    unfold srcNum
    ring
  by_cases h1 : n ≤ 1
  · have hj0 : j = 0 := by omega
    subst hj0
    rw [if_pos (Or.inr h1)]
    exact ⟨rfl, rfl⟩
  · have hn0 : (0 : Int) < 2 * (n : Int) := by
      have : 0 < n := by omega
      positivity
    have hge : ¬ (srcNum n n j < 0 ∨ n ≤ 1) := by
      push_neg
      refine ⟨?_, by omega⟩
      rw [hnum]
      positivity
    rw [if_neg hge]
    have hf : ((srcNum n n j / (2 * (n : Int))).toNat) = j := by
      rw [hnum, Int.mul_ediv_cancel_left _ (by omega : (2 * (n : Int)) ≠ 0),
        Int.toNat_natCast]
    rw [hf]
    by_cases hc : n - 1 ≤ j
    · rw [if_pos hc]
      exact ⟨by omega, rfl⟩
    · rw [if_neg hc]
      refine ⟨rfl, ?_⟩
      rw [hnum]
      ring

/-- Bilinear interpolation with both fractional weights zero returns the
base sample. -/
theorem interpNat_zero (a b c d : Nat) (dx dy : Int)
    (hdx : 0 < dx) (hdy : 0 < dy) :
    interpNat a b c d 0 dx 0 dy = a := by
  unfold interpNat
  have hD : (0 : Int) < dx * dy := mul_pos hdx hdy
  have h2 : 2 * ((dy - 0) * ((dx - 0) * (a : Int) + 0 * (b : Int))
      + 0 * ((dx - 0) * (c : Int) + 0 * (d : Int))) + dx * dy
      = (dx * dy) * (2 * (a : Int) + 1) := by ring
  have h3 : 2 * (dx * dy) = (dx * dy) * 2 := by ring
  rw [h2, h3, Int.mul_ediv_mul_of_pos _ _ hD]
  have h4 : (2 * (a : Int) + 1) / 2 = (a : Int) := by omega
  rw [h4, Int.toNat_natCast]

/-- Resizing to the source size leaves every pixel unchanged. -/
theorem resizePix_self (img : Image) (i j : Nat)
    (hi : i < heightOf img) (hj : j < widthOf img) :
    resizePix img (widthOf img) (heightOf img) i j = pixAt img i j := by
  obtain ⟨hy1, hy2⟩ := sampleCoeff_self (heightOf img) i hi
  obtain ⟨hx1, hx2⟩ := sampleCoeff_self (widthOf img) j hj
  have hdx : (0 : Int) < 2 * (widthOf img : Int) := by
    have : 0 < widthOf img := by omega
    positivity
  have hdy : (0 : Int) < 2 * (heightOf img : Int) := by
    have : 0 < heightOf img := by omega
    positivity
  simp only [resizePix, hy1, hy2, hx1, hx2]
  rw [interpNat_zero _ _ _ _ _ _ hdx hdy, interpNat_zero _ _ _ _ _ _ hdx hdy,
    interpNat_zero _ _ _ _ _ _ hdx hdy]

/-- `cv2.resize` of a rectangular image to its own size is the
identity. -/
theorem resizeLinear_self (img : Image) (h : RectImg img) :
    resizeLinear img (widthOf img) (heightOf img) = img := by
  unfold resizeLinear
  conv_rhs => rw [← map_range_getD img []]
  apply List.map_congr_left
  intro i hi
  have hi' : i < heightOf img := List.mem_range.mp hi
  have hlen : (img.getD i []).length = widthOf img := by
    have hmem : img.getD i [] ∈ img := by
      rw [List.getD_eq_getElem img [] hi']
      exact List.getElem_mem hi'
    exact h _ hmem
  conv_rhs => rw [← map_range_getD (img.getD i []) (⟨0, 0, 0⟩ : Pix3)]
  rw [hlen]
  apply List.map_congr_left
  intro j hj
  exact resizePix_self img i j hi' (List.mem_range.mp hj)

/-- Claim C1, counterexample.  First conjunct: with trace enhancement on
(mode off, zoom 100) the preview dilates the bright trace while the export
never applies trace enhancement, so the buffers differ.  Second conjunct:
with mode 7 (binary threshold) at zoom 200 and trace off, the preview
thresholds before interpolating (producing intermediate gray levels 64 and
191) while the export interpolates before thresholding (producing pure
0/255), so the buffers differ — filtering and scaling do not commute. -/
theorem C1_counterexample :
    updateZoomBuffer cvTrivial false 0 true 100 imgTrace
      ≠ exportBuffer cvTrivial false 0 100 imgTrace
    ∧ updateZoomBuffer cvTrivial true 7 false 200 imgStep
      ≠ exportBuffer cvTrivial true 7 200 imgStep := by
  decide

/-- Claim C1 (amended): when trace enhancement is off and the zoom is 100%
(the scaling step is the identity), the export buffer is pixel-identical
to the preview buffer (before overlay compositing and the display-only
BGR-to-RGB reordering), for every filter mode, enable flag, and rectangular
image — both code paths then apply the same filter code to the same
buffer.  At other zooms the pipelines disagree in general because the
preview filters before scaling and the export scales before filtering, and
with trace enhancement on they disagree because the export never applies
it. -/
theorem C1_preview_export_agree (cv : CvPrims) (enhanced : Bool) (mode : Nat)
    (img : Image) (h1 : RectImg img)
    (h2 : RectImg (contrastStage cv enhanced mode img)) :
    updateZoomBuffer cv enhanced mode false 100 img
      = exportBuffer cv enhanced mode 100 img := by
  unfold updateZoomBuffer exportBuffer filterStageOutput traceStage
  simp only [Bool.false_eq_true, if_false]
  rw [Nat.mul_div_cancel _ (by norm_num), Nat.mul_div_cancel _ (by norm_num),
    Nat.mul_div_cancel _ (by norm_num), Nat.mul_div_cancel _ (by norm_num),
    resizeLinear_self _ h2, resizeLinear_self _ h1]

/-- Claim C1 (amended), witness: the trace fixture at zoom 100, trace off,
mode 0. -/
theorem C1_preview_export_agree_witness :
    updateZoomBuffer cvTrivial false 0 false 100 imgTrace
      = exportBuffer cvTrivial false 0 100 imgTrace :=
  C1_preview_export_agree cvTrivial false 0 imgTrace (by decide) (by decide)

/-- Claim C8, counterexample: with trace enhancement active, the image
handed to the scaling/display step under mode 0 is the dilated trace, not
the original input. -/
theorem C8_counterexample :
    filterStageOutput cvTrivial false 0 true imgTrace ≠ imgTrace := by
  decide

/-- Claim C8 (amended): with trace enhancement disabled, mode None/Normal
(contrast mode 0, or the enhanced-mode enable flag off) is the identity —
the image handed to the scaling/display step equals the original input. -/
theorem C8_mode_none_identity (cv : CvPrims) (enhanced : Bool) (mode : Nat)
    (img : Image) (h : enhanced = false ∨ mode = 0) :
    filterStageOutput cv enhanced mode false img = img := by
  unfold filterStageOutput traceStage contrastStage
  rcases h with h | h
  · subst h
    simp
  · subst h
    simp

/-- Claim C8 (amended), witness: enable flag off, nonzero mode, trace
fixture. -/
theorem C8_mode_none_identity_witness :
    filterStageOutput cvTrivial false 3 false imgTrace = imgTrace :=
  C8_mode_none_identity cvTrivial false 3 imgTrace (Or.inl rfl)

end EEGParadox
